import Mathlib

/-!
Shallow embedding of `internal/tools/duckdbsql/duckdbsql.go` from the
genai-toolbox repository: the `duckdb-sql` tool adapter.

Modelling conventions:

* Driver values (Go `any` cells produced by `database/sql` scanning) are the
  inductive `Value`; the Go `nil` cell (SQL NULL) is `Value.vnull`.
* A Go `map[string]V` is **unordered**: iteration order is deliberately
  randomized by the Go runtime and no insertion order is observable.  We
  embed it as its canonical key-sorted association list (the same canonical
  order `encoding/json` uses when marshalling a Go map), built by
  `goMapInsert`, which keeps the list strictly sorted by key and overwrites
  an existing binding, exactly like Go map assignment.
* A Go slice is `GoSlice α := Option (List α)`: `none` is the nil slice
  (`var result []any` before any append; it has length 0 but is Go `nil`
  and marshals to JSON `null`), `some l` a non-nil slice.  `goAppend`
  mirrors Go `append`, which always yields a non-nil slice.
* The `*sql.Rows` cursor obtained from `Db.QueryContext` is `Rows`: the
  outcome of `rows.Columns()`, the successive outcomes of
  `rows.Next()`/`rows.Scan(...)` (one list entry per row the cursor
  yields), the outcome of `rows.Close()` and of `rows.Err()`.  The database
  handle itself is external I/O, so `Invoke` takes the engine behaviour as
  an explicit function `Db` from (statement text, positional args) to a
  query outcome, instead of the `*sql.DB` field of the Go struct.
* `defer rows.Close()` is embedded by `Tool.InvokeTraced`, which pairs the
  result with a cursor-fate flag: `none` when the cursor was never acquired
  (failure before `QueryContext` succeeded), `some true` at a return site
  where the deferred close has run.
* Go error values are `String`s carrying the `fmt.Errorf` wrap text of the
  failing stage.
-/

/-- A dynamically-typed driver value; `vnull` is the Go `nil` cell used for
SQL NULL. -/
inductive Value where
  | vnull
  | vint (n : Int)
  | vstr (s : String)
  | vbool (b : Bool)
deriving DecidableEq, Repr

/-- Rendering of a value substituted into SQL text by template resolution. -/
def renderValue : Value → String
  | Value.vnull => ""
  | Value.vint n => toString n
  | Value.vstr s => s
  | Value.vbool b => toString b

/-- Codepoint-order comparison on character lists, used for the canonical
key order of the Go map embedding. -/
def charListLt : List Char → List Char → Bool
  | [], [] => false
  | [], _ :: _ => true
  | _ :: _, [] => false
  | c :: cs, d :: ds =>
    if c.toNat < d.toNat then true
    else if d.toNat < c.toNat then false
    else charListLt cs ds

/-- Codepoint (equivalently UTF-8 byte) order on strings: the canonical
key order used to represent unordered Go maps. -/
def strLt (a b : String) : Bool := charListLt a.data b.data

/-- Go map assignment `m[k] = v` on the canonical key-sorted association
list representing a Go `map[string]α`: overwrites an existing binding for
`k`, otherwise inserts keeping the list sorted by key.  The sorted order
stands for the fact that a Go map retains no insertion order (it is also
the key order `encoding/json` uses when marshalling a Go map). -/
def goMapInsert {α : Type} (m : List (String × α)) (k : String) (v : α) :
    List (String × α) :=
  match m with
  | [] => [(k, v)]
  | (k', v') :: rest =>
    if k = k' then (k, v) :: rest
    else if strLt k k' then (k, v) :: (k', v') :: rest
    else (k', v') :: goMapInsert rest k v

/-- A Go slice: `none` is the nil slice (length 0, marshals to JSON null),
`some l` a non-nil slice with elements `l`. -/
abbrev GoSlice (α : Type) := Option (List α)

/-- Go `append` on a slice: appending to the nil slice allocates, so the
result is always non-nil. -/
def goAppend {α : Type} (s : GoSlice α) (x : α) : GoSlice α :=
  some (s.getD [] ++ [x])

/-- The elements of a Go slice (`len`/indexing view; nil and empty agree). -/
def GoSlice.toList {α : Type} (s : GoSlice α) : List α := s.getD []

/-- One materialized result row: the Go `map[string]interface{}` built at
duckdbsql.go lines 170-181, in canonical (key-sorted) form. -/
abbrev RowMap := List (String × Value)

/-- Decidable equality for `Except` results (not derived in core). -/
instance {ε α : Type} [DecidableEq ε] [DecidableEq α] :
    DecidableEq (Except ε α) := fun x y =>
  match x, y with
  | Except.ok a, Except.ok b =>
    if h : a = b then isTrue (by rw [h]) else isFalse (by simp [h])
  | Except.error a, Except.error b =>
    if h : a = b then isTrue (by rw [h]) else isFalse (by simp [h])
  | Except.ok _, Except.error _ => isFalse (by simp)
  | Except.error _, Except.ok _ => isFalse (by simp)

/-- Outcome of a successful `QueryContext`: the `*sql.Rows` cursor.
`columnsRes` is the outcome of `rows.Columns()`; `scans` has one entry per
iteration in which `rows.Next()` returned true, giving that row's
`rows.Scan` outcome (the scanned buffer on success); `closeErr` is the
error reported by `rows.Close()`, `iterErr` the error reported by
`rows.Err()` after iteration ends. -/
structure Rows where
  columnsRes : Except String (List String)
  scans : List (Except String (List Value))
  closeErr : Option String
  iterErr : Option String
deriving DecidableEq, Repr

/-- The behaviour of the bound database handle: maps (final statement text,
positional bind arguments) to the outcome of `Db.QueryContext`. -/
abbrev Db := String → List Value → Except String Rows

/-- A declared parameter: its name and whether it is required.  (The
declared type and description play no role in the properties considered
here.) -/
structure Parameter where
  name : String
  required : Bool
deriving DecidableEq, Repr

/-- The resolved (name, value) pairs of one invocation: Go
`tools.ParamValues`, an ordered collection. -/
abbrev ParamValues := List (String × Value)

/-- Modelled from the spec: `tools.ParamValues.AsMap` lives in
`internal/tools`, which is not part of the given source.  Spec section 3:
ParamValues offers "a name-keyed mapping (for template substitution)"; we
build the Go map from the ordered pairs (later bindings overwrite). -/
def paramValuesAsMap (ps : ParamValues) : List (String × Value) :=
  ps.foldl (fun m p => goMapInsert m p.1 p.2) []

/-- Modelled from the spec: `tools.ParamValues.AsSlice` lives in
`internal/tools`, which is not part of the given source.  Spec section 3:
ParamValues offers "a positional sequence (for query binding), the latter's
order fixed by declaration order". -/
def paramValuesAsSlice (ps : ParamValues) : List Value := ps.map Prod.snd

/-- Modelled from the spec: `tools.ResolveTemplateParams` lives in
`internal/tools`, which is not part of the given source.  Spec section 4.3
step 1: substitute each declared template marker occurring in the statement
text with its resolved value rendered as text; fail if a required template
parameter is missing from the input.  Markers use the Go template form
`\x7b\x7b.name\x7d\x7d`. -/
def ResolveTemplateParams (tparams : List Parameter) (statement : String)
    (paramsMap : List (String × Value)) : Except String String :=
  match tparams with
  | [] => Except.ok statement
  | p :: rest =>
    match paramsMap.lookup p.name with
    | some v =>
      ResolveTemplateParams rest
        (statement.replace ("\x7b\x7b." ++ p.name ++ "\x7d\x7d") (renderValue v))
        paramsMap
    | none =>
      if p.required then
        Except.error ("missing required template parameter " ++ p.name)
      else ResolveTemplateParams rest statement paramsMap

/-- Modelled from the spec: `tools.GetParams` lives in `internal/tools`,
which is not part of the given source.  Spec section 4.3 step 2: produce
validated ParamValues for the declared standard parameters in declaration
order; fail on a missing required parameter.  A missing optional parameter
resolves to the null value. -/
def GetParams (params : List Parameter) (paramsMap : List (String × Value)) :
    Except String ParamValues :=
  match params with
  | [] => Except.ok []
  | p :: rest =>
    match paramsMap.lookup p.name with
    | some v =>
      match GetParams rest paramsMap with
      | Except.error e => Except.error e
      | Except.ok tail => Except.ok ((p.name, v) :: tail)
    | none =>
      if p.required then
        Except.error ("missing required standard parameter " ++ p.name)
      else
        match GetParams rest paramsMap with
        | Except.error e => Except.error e
        | Except.ok tail => Except.ok ((p.name, Value.vnull) :: tail)

/-- A manifest entry for one declared parameter. -/
structure ParameterManifest where
  name : String
  required : Bool
deriving DecidableEq, Repr

/-- Go `tools.Manifest` as populated at duckdbsql.go line 95. -/
structure Manifest where
  Description : String
  Parameters : List ParameterManifest
  AuthRequired : List String
deriving DecidableEq, Repr

/-- Go `tools.McpManifest` as populated at duckdbsql.go lines 79-83. -/
structure McpManifest where
  Name : String
  Description : String
  InputSchema : List ParameterManifest
deriving DecidableEq, Repr

/-- Modelled from the spec: `tools.ProcessParameters` lives in
`internal/tools`, which is not part of the given source.  Spec sections 4.2
and 8: it combines the template and standard parameter definitions and
produces the two manifest forms, which "enumerate every declared parameter
exactly once in declaration order" (template parameters first, as passed at
duckdbsql.go line 77). -/
def ProcessParameters (tparams params : List Parameter) :
    List Parameter × List ParameterManifest × List ParameterManifest :=
  let all := tparams ++ params
  (all, all.map (fun p => ⟨p.name, p.required⟩),
    all.map (fun p => ⟨p.name, p.required⟩))

/-- The constant `kind` of duckdbsql.go line 28. -/
def kind : String := "duckdb-sql"

/-- The `compatibleSources` array of duckdbsql.go line 50: the kinds of
sources implementing the `compatibleSource` capability. -/
def compatibleSources : List String := ["duckdb"]

/-- A configured source as seen by this adapter: its kind and whether it
implements the `compatibleSource` interface of duckdbsql.go line 44 (the
Go type assertion `rawS.(compatibleSource)`). -/
structure Source where
  srcKind : String
  hasDuckDb : Bool
deriving DecidableEq, Repr

/-- The `Tool` struct of duckdbsql.go lines 108-120.  The `Db *sql.DB`
handle is external I/O and is passed to `Invoke` explicitly instead of being
stored. -/
structure Tool where
  Name : String
  Kind : String
  AuthRequired : List String
  Parameters : List Parameter
  TemplateParameters : List Parameter
  AllParams : List Parameter
  Statement : String
  manifest : Manifest
  mcpManifest : McpManifest
deriving DecidableEq, Repr

/-- The `Config` struct of duckdbsql.go lines 52-61. -/
structure Config where
  Name : String
  Kind : String
  Source : String
  Description : String
  Statement : String
  AuthRequired : List String
  Parameters : List Parameter
  TemplateParameters : List Parameter
deriving DecidableEq, Repr

/-- The source registry passed to Initialize: the Go
`map[string]sources.Source`, with unique names. -/
abbrev SourceRegistry := List (String × Source)

/-- Config.Initialize, duckdbsql.go lines 64-99: look up the named source
in the registry, check the `compatibleSource` capability, process the
parameters and assemble the immutable Tool value. -/
def Config.Initialize (c : Config) (srcs : SourceRegistry) :
    Except String Tool :=
  match srcs.lookup c.Source with
  | none => Except.error ("no source named \"" ++ c.Source ++ "\" configured")
  | some s =>
    if s.hasDuckDb then
      let processed := ProcessParameters c.TemplateParameters c.Parameters
      Except.ok
        { Name := c.Name
          Kind := kind
          AuthRequired := c.AuthRequired
          Parameters := c.Parameters
          TemplateParameters := c.TemplateParameters
          AllParams := processed.1
          Statement := c.Statement
          manifest :=
            { Description := c.Description
              Parameters := processed.2.1
              AuthRequired := c.AuthRequired }
          mcpManifest :=
            { Name := c.Name
              Description := c.Description
              InputSchema := processed.2.2 } }
    else
      Except.error
        ("invalid source for \"duckdb-sql\" tool: source kind must be one of [\"duckdb\"]")

/-- Tool.Manifest, duckdbsql.go lines 196-198: returns the precomputed
manifest field. -/
def Tool.Manifest (t : Tool) : Manifest := t.manifest

/-- Tool.McpManifest, duckdbsql.go lines 201-203: returns the precomputed
mcpManifest field. -/
def Tool.McpManifest (t : Tool) : McpManifest := t.mcpManifest

/-- The row-materialization loop of duckdbsql.go lines 170-180: for each
column index i, `rowMap[col] = values[i]`, with a `nil` value stored
explicitly (`rowMap[col] = nil`). -/
def scanRowToMap (cols : List String) (values : List Value) : RowMap :=
  (cols.zip values).foldl
    (fun rowMap cv =>
      match cv.2 with
      | Value.vnull => goMapInsert rowMap cv.1 Value.vnull
      | v => goMapInsert rowMap cv.1 v)
    []

/-- The `for rows.Next()` loop of duckdbsql.go lines 163-182: scan each
row, abort with the wrapped scan error on failure, otherwise append the
row's map to the accumulated result slice. -/
def processRows (cols : List String) :
    List (Except String (List Value)) → GoSlice RowMap →
      Except String (GoSlice RowMap)
  | [], acc => Except.ok acc
  | Except.error e :: _, _ => Except.error ("unable to scan row: " ++ e)
  | Except.ok values :: rest, acc =>
    processRows cols rest (goAppend acc (scanRowToMap cols values))

/-- Tool.Invoke, duckdbsql.go lines 128-193, with the fate of the row
cursor made explicit: the second component is `none` when no cursor was
acquired, `some true` at a return site where the deferred `rows.Close()`
has run.  The result slice starts as the nil slice (`var result []any`,
line 161). -/
def Tool.InvokeTraced (t : Tool) (db : Db) (params : ParamValues) :
    Except String (GoSlice RowMap) × Option Bool :=
  let paramsMap := paramValuesAsMap params
  match ResolveTemplateParams t.TemplateParameters t.Statement paramsMap with
  | Except.error e =>
    (Except.error ("unable to extract template params " ++ e), none)
  | Except.ok newStatement =>
    match GetParams t.Parameters paramsMap with
    | Except.error e =>
      (Except.error ("unable to extract standard params " ++ e), none)
    | Except.ok newParams =>
      match db newStatement (paramValuesAsSlice newParams) with
      | Except.error e =>
        (Except.error ("unable to execute query: " ++ e), none)
      | Except.ok rows =>
        match rows.columnsRes with
        | Except.error e =>
          (Except.error ("unable to get column names: " ++ e), some true)
        | Except.ok cols =>
          match processRows cols rows.scans none with
          | Except.error e => (Except.error e, some true)
          | Except.ok result =>
            match rows.closeErr with
            | some e =>
              (Except.error ("unable to close rows: " ++ e), some true)
            | none =>
              match rows.iterErr with
              | some e =>
                (Except.error ("error iterating rows: " ++ e), some true)
              | none => (Except.ok result, some true)

/-- Tool.Invoke, duckdbsql.go lines 128-193: the returned value (the
cursor-fate trace projected away). -/
def Tool.Invoke (t : Tool) (db : Db) (params : ParamValues) :
    Except String (GoSlice RowMap) :=
  (t.InvokeTraced db params).1

/-! Concrete fixtures used by witnesses and counterexamples. -/

/-- A tool with no declared parameters. -/
def t0 : Tool :=
  { Name := "tool0", Kind := kind, AuthRequired := [],
    Parameters := [], TemplateParameters := [], AllParams := [],
    Statement := "SELECT 1, 2",
    manifest := { Description := "d", Parameters := [], AuthRequired := [] },
    mcpManifest := { Name := "tool0", Description := "d", InputSchema := [] } }

/-- A tool with one required template parameter. -/
def t1 : Tool :=
  { t0 with TemplateParameters := [⟨"tp", true⟩] }

/-- A tool with one required standard parameter and no template
parameters. -/
def tStd : Tool :=
  { t0 with Parameters := [⟨"p", true⟩] }

/-- An engine outcome: columns `["b", "a"]`, one row `(1, 2)`. -/
def rows0 : Rows :=
  { columnsRes := Except.ok ["b", "a"],
    scans := [Except.ok [Value.vint 1, Value.vint 2]],
    closeErr := none, iterErr := none }

def db0 : Db := fun _ _ => Except.ok rows0

/-- An engine outcome with a duplicated column name: columns `["a", "a"]`,
one row `(NULL, 5)`. -/
def rows1 : Rows :=
  { columnsRes := Except.ok ["a", "a"],
    scans := [Except.ok [Value.vnull, Value.vint 5]],
    closeErr := none, iterErr := none }

def db1 : Db := fun _ _ => Except.ok rows1

/-- An engine outcome matching zero rows. -/
def rowsEmpty : Rows :=
  { columnsRes := Except.ok ["a"], scans := [],
    closeErr := none, iterErr := none }

def dbEmpty : Db := fun _ _ => Except.ok rowsEmpty

/-- An engine outcome whose second row fails to scan. -/
def rowsScanErr : Rows :=
  { columnsRes := Except.ok ["a"],
    scans := [Except.ok [Value.vint 1], Except.error "scan boom"],
    closeErr := none, iterErr := none }

def dbScanErr : Db := fun _ _ => Except.ok rowsScanErr

/-- An engine outcome whose cursor close reports an error after all rows
scanned successfully. -/
def rowsCloseErr : Rows :=
  { columnsRes := Except.ok ["a"],
    scans := [Except.ok [Value.vint 1]],
    closeErr := some "close boom", iterErr := none }

def dbCloseErr : Db := fun _ _ => Except.ok rowsCloseErr

/-- An engine outcome with distinct columns ["b", "a"] and one row whose
first column value is NULL. -/
def rowsNull : Rows :=
  { columnsRes := Except.ok ["b", "a"],
    scans := [Except.ok [Value.vnull, Value.vint 7]],
    closeErr := none, iterErr := none }

def dbNull : Db := fun _ _ => Except.ok rowsNull

/-- An engine outcome whose iteration ends with a cursor error. -/
def rowsIterErr : Rows :=
  { columnsRes := Except.ok ["a"],
    scans := [Except.ok [Value.vint 1]],
    closeErr := none, iterErr := some "iter boom" }

def dbIterErr : Db := fun _ _ => Except.ok rowsIterErr

/-- A configuration whose declared `Kind` differs from the tool kind. -/
def cfg0 : Config :=
  { Name := "tool0", Kind := "whatever", Source := "s0", Description := "d",
    Statement := "SELECT 1", AuthRequired := [],
    Parameters := [⟨"p", true⟩], TemplateParameters := [⟨"tp", true⟩] }

/-- A registry holding a compatible (duckdb) source under the name
cfg0 references. -/
def regGood : SourceRegistry := [("s0", ⟨"duckdb", true⟩)]

/-- A registry holding an incompatible source under the name cfg0
references. -/
def regBad : SourceRegistry := [("s0", ⟨"postgres", false⟩)]

/-- The tool produced by initializing cfg0 against regGood. -/
def tGood : Tool :=
  { Name := "tool0", Kind := "duckdb-sql", AuthRequired := [],
    Parameters := [⟨"p", true⟩], TemplateParameters := [⟨"tp", true⟩],
    AllParams := [⟨"tp", true⟩, ⟨"p", true⟩],
    Statement := "SELECT 1",
    manifest := { Description := "d",
                  Parameters := [⟨"tp", true⟩, ⟨"p", true⟩],
                  AuthRequired := [] },
    mcpManifest := { Name := "tool0", Description := "d",
                     InputSchema := [⟨"tp", true⟩, ⟨"p", true⟩] } }

/-! Supporting lemmas. -/

/-- Unfolding of the invocation pipeline once template resolution,
standard-parameter extraction, query execution and column discovery have
all succeeded. -/
theorem invokeTraced_eq_of_pipeline (t : Tool) (db : Db) (params : ParamValues)
    (stmt : String) (ps : ParamValues) (rows : Rows) (cols : List String)
    (h1 : ResolveTemplateParams t.TemplateParameters t.Statement
        (paramValuesAsMap params) = Except.ok stmt)
    (h2 : GetParams t.Parameters (paramValuesAsMap params) = Except.ok ps)
    (h3 : db stmt (paramValuesAsSlice ps) = Except.ok rows)
    (h4 : rows.columnsRes = Except.ok cols) :
    t.InvokeTraced db params =
      match processRows cols rows.scans none with
      | Except.error e => (Except.error e, some true)
      | Except.ok result =>
        match rows.closeErr with
        | some e => (Except.error ("unable to close rows: " ++ e), some true)
        | none =>
          match rows.iterErr with
          | some e => (Except.error ("error iterating rows: " ++ e), some true)
          | none => (Except.ok result, some true) := by
  simp only [Tool.InvokeTraced, h1, h2, h3, h4]

/-- The row loop on a list of successful scans accumulates one appended
row map per scan. -/
theorem processRows_map_ok (cols : List String) (vss : List (List Value)) :
    ∀ acc, processRows cols (vss.map Except.ok) acc =
      Except.ok (vss.foldl (fun a vs => goAppend a (scanRowToMap cols vs)) acc) := by
  induction vss with
  | nil => intro acc; rfl
  | cons vs rest ih => intro acc; simp only [List.map_cons, processRows,
      List.foldl_cons, ih]

/-- The row loop aborts with the wrapped scan error as soon as a scan
fails, whatever was accumulated before. -/
theorem processRows_scan_error (cols : List String) (pres : List (List Value))
    (e : String) (rest : List (Except String (List Value))) :
    ∀ acc, processRows cols (pres.map Except.ok ++ Except.error e :: rest) acc =
      Except.error ("unable to scan row: " ++ e) := by
  induction pres with
  | nil => intro acc; rfl
  | cons vs ps ih => intro acc; simp only [List.map_cons, List.cons_append,
      List.append_eq, processRows, ih]

/-- Elements of a fold of Go appends: the accumulated elements followed by
the images of the folded list, in order. -/
theorem toList_foldl_goAppend {α β : Type} (f : α → β) (l : List α) :
    ∀ acc : GoSlice β,
      GoSlice.toList (l.foldl (fun a x => goAppend a (f x)) acc) =
        GoSlice.toList acc ++ l.map f := by
  induction l with
  | nil => intro acc; simp
  | cons x xs ih =>
    intro acc
    rw [List.foldl_cons, List.map_cons, ih]
    simp [goAppend, GoSlice.toList]

/-- C1: with a complete, well-typed input map (template resolution and
standard-parameter extraction succeed) and a fully successful query
(execution, column discovery, every row scan, close and end-of-iteration
all succeed), Invoke returns a ResultSet holding exactly one record per
engine row — the materialization of that row — in exactly the order the
engine returned the rows, with no reordering, deduplication or
resorting. -/
theorem Invoke_one_record_per_row_in_order (t : Tool) (db : Db)
    (params : ParamValues) (stmt : String) (ps : ParamValues) (rows : Rows)
    (cols : List String) (vss : List (List Value))
    (h1 : ResolveTemplateParams t.TemplateParameters t.Statement
        (paramValuesAsMap params) = Except.ok stmt)
    (h2 : GetParams t.Parameters (paramValuesAsMap params) = Except.ok ps)
    (h3 : db stmt (paramValuesAsSlice ps) = Except.ok rows)
    (h4 : rows.columnsRes = Except.ok cols)
    (h5 : rows.scans = vss.map Except.ok)
    (h6 : rows.closeErr = none) (h7 : rows.iterErr = none) :
    (t.Invoke db params).map GoSlice.toList =
        Except.ok (vss.map (scanRowToMap cols)) ∧
      (t.Invoke db params).map (fun r => (GoSlice.toList r).length) =
        Except.ok vss.length := by
  have key : t.Invoke db params =
      Except.ok (vss.foldl (fun a vs => goAppend a (scanRowToMap cols vs)) none) := by
    unfold Tool.Invoke
    rw [invokeTraced_eq_of_pipeline t db params stmt ps rows cols h1 h2 h3 h4]
    rw [h5, processRows_map_ok, h6, h7]
  have h := toList_foldl_goAppend (scanRowToMap cols) vss (none : GoSlice RowMap)
  simp only [GoSlice.toList, Option.getD_none, List.nil_append] at h
  refine ⟨?_, ?_⟩
  · rw [key]
    simp [Except.map, GoSlice.toList, h]
  · rw [key]
    simp [Except.map, GoSlice.toList, h]

/-- C1 witness: the one-row engine outcome rows0 yields exactly one
record, the materialization of that row. -/
theorem Invoke_one_record_per_row_in_order_witness :
    (Tool.Invoke t0 db0 []).map GoSlice.toList =
        Except.ok ([[Value.vint 1, Value.vint 2]].map (scanRowToMap ["b", "a"])) ∧
      (Tool.Invoke t0 db0 []).map (fun r => (GoSlice.toList r).length) =
        Except.ok [[Value.vint 1, Value.vint 2]].length :=
  Invoke_one_record_per_row_in_order t0 db0 [] "SELECT 1, 2" [] rows0
    ["b", "a"] [[Value.vint 1, Value.vint 2]] rfl rfl rfl rfl rfl rfl rfl

/-- C2: if scanning some row of the cursor fails, Invoke returns the
wrapped scan error — an error value, not a ResultSet, and in particular
never the prefix of records materialized before the failing row. -/
theorem Invoke_scan_failure_returns_error_only (t : Tool) (db : Db)
    (params : ParamValues) (stmt : String) (ps : ParamValues) (rows : Rows)
    (cols : List String) (pres : List (List Value)) (e : String)
    (rest : List (Except String (List Value)))
    (h1 : ResolveTemplateParams t.TemplateParameters t.Statement
        (paramValuesAsMap params) = Except.ok stmt)
    (h2 : GetParams t.Parameters (paramValuesAsMap params) = Except.ok ps)
    (h3 : db stmt (paramValuesAsSlice ps) = Except.ok rows)
    (h4 : rows.columnsRes = Except.ok cols)
    (h5 : rows.scans = pres.map Except.ok ++ Except.error e :: rest) :
    t.Invoke db params = Except.error ("unable to scan row: " ++ e) := by
  unfold Tool.Invoke
  rw [invokeTraced_eq_of_pipeline t db params stmt ps rows cols h1 h2 h3 h4]
  rw [h5, processRows_scan_error]

/-- C2 witness: an engine outcome whose second row fails to scan makes
Invoke return the scan error even though the first row scanned fine. -/
theorem Invoke_scan_failure_returns_error_only_witness :
    Tool.Invoke t0 dbScanErr [] =
      Except.error ("unable to scan row: " ++ "scan boom") :=
  Invoke_scan_failure_returns_error_only t0 dbScanErr [] "SELECT 1, 2" []
    rowsScanErr ["a"] [[Value.vint 1]] "scan boom" [] rfl rfl rfl rfl rfl

/-- C4 counterexample: a successfully executed query matching zero rows
makes Invoke return the nil slice (`var result []any` is never appended
to), which is Go `nil` — the null/absent sequence value, distinguishable
from a non-nil empty slice — rather than a non-null empty ResultSet. -/
theorem Invoke_zero_rows_counterexample :
    rowsEmpty.scans = [] ∧
      Tool.Invoke t0 dbEmpty [] = Except.ok (none : GoSlice RowMap) ∧
      (none : GoSlice RowMap) ≠ (some [] : GoSlice RowMap) :=
  ⟨rfl, rfl, by decide⟩

/-- C4 (amended): for every invocation whose query executes successfully
and matches zero rows, Invoke succeeds with a result of length 0 — but
that result is the nil slice (Go `nil`, serialized as a null/absent
value), not a non-nil empty sequence. -/
theorem Invoke_zero_rows_nil_slice (t : Tool) (db : Db) (params : ParamValues)
    (stmt : String) (ps : ParamValues) (rows : Rows) (cols : List String)
    (h1 : ResolveTemplateParams t.TemplateParameters t.Statement
        (paramValuesAsMap params) = Except.ok stmt)
    (h2 : GetParams t.Parameters (paramValuesAsMap params) = Except.ok ps)
    (h3 : db stmt (paramValuesAsSlice ps) = Except.ok rows)
    (h4 : rows.columnsRes = Except.ok cols)
    (h5 : rows.scans = [])
    (h6 : rows.closeErr = none) (h7 : rows.iterErr = none) :
    t.Invoke db params = Except.ok (none : GoSlice RowMap) ∧
      (GoSlice.toList (none : GoSlice RowMap)).length = 0 := by
  constructor
  · unfold Tool.Invoke
    rw [invokeTraced_eq_of_pipeline t db params stmt ps rows cols h1 h2 h3 h4]
    rw [h5, h6, h7]
    rfl
  · rfl

/-- C4 witness for the amended claim: the zero-row engine outcome. -/
theorem Invoke_zero_rows_nil_slice_witness :
    Tool.Invoke t0 dbEmpty [] = Except.ok (none : GoSlice RowMap) ∧
      (GoSlice.toList (none : GoSlice RowMap)).length = 0 :=
  Invoke_zero_rows_nil_slice t0 dbEmpty [] "SELECT 1, 2" [] rowsEmpty ["a"]
    rfl rfl rfl rfl rfl rfl rfl

/-- C7: Initialize fails with the source-not-found error when the named
source is absent from the registry, and with the incompatible-source error
(naming the accepted source kinds) when the named source does not expose
the DuckDb SQL-handle capability; in both cases it returns an error and no
tool value. -/
theorem Initialize_source_errors (c : Config) (srcs : SourceRegistry) :
    (srcs.lookup c.Source = none →
      c.Initialize srcs =
        Except.error ("no source named \"" ++ c.Source ++ "\" configured")) ∧
      (∀ s, srcs.lookup c.Source = some s → s.hasDuckDb = false →
        c.Initialize srcs =
          Except.error
            ("invalid source for \"duckdb-sql\" tool: source kind must be one of [\"duckdb\"]")) := by
  constructor
  · intro h
    simp [Config.Initialize, h]
  · intro s h hs
    simp [Config.Initialize, h, hs]

/-- C7 witness: an empty registry triggers the source-not-found error and
a registry holding a non-duckdb source triggers the incompatible-source
error. -/
theorem Initialize_source_errors_witness :
    (([] : SourceRegistry).lookup cfg0.Source = none ∧
      cfg0.Initialize [] =
        Except.error ("no source named \"" ++ cfg0.Source ++ "\" configured")) ∧
      (regBad.lookup cfg0.Source = some ⟨"postgres", false⟩ ∧
        cfg0.Initialize regBad =
          Except.error
            ("invalid source for \"duckdb-sql\" tool: source kind must be one of [\"duckdb\"]")) :=
  ⟨⟨rfl, (Initialize_source_errors cfg0 []).1 rfl⟩,
    ⟨rfl, (Initialize_source_errors cfg0 regBad).2 ⟨"postgres", false⟩ rfl rfl⟩⟩

/-- C9: on successful initialization the two precomputed manifests
enumerate every declared parameter exactly once in declaration order
(template parameters first, then standard parameters, each contributing
exactly its own entry), and the Manifest and McpManifest accessors are
pure projections of the immutable tool value: they never fail and return
the precomputed fields. -/
theorem Initialize_manifests_and_accessors (c : Config) (srcs : SourceRegistry)
    (t : Tool) (h : c.Initialize srcs = Except.ok t) :
    t.manifest.Parameters =
        (c.TemplateParameters ++ c.Parameters).map
          (fun p => ⟨p.name, p.required⟩) ∧
      t.mcpManifest.InputSchema =
        (c.TemplateParameters ++ c.Parameters).map
          (fun p => ⟨p.name, p.required⟩) ∧
      t.Manifest = t.manifest ∧ t.McpManifest = t.mcpManifest := by
  unfold Config.Initialize at h
  split at h
  · exact absurd h (by simp)
  · split at h
    · injection h with h2
      subst h2
      simp [ProcessParameters, Tool.Manifest, Tool.McpManifest]
    · exact absurd h (by simp)

/-- C9 witness: initializing cfg0 against the compatible registry yields
tGood, whose manifests list the template parameter then the standard
parameter, once each. -/
theorem Initialize_manifests_and_accessors_witness :
    cfg0.Initialize regGood = Except.ok tGood ∧
      (tGood.manifest.Parameters =
          (cfg0.TemplateParameters ++ cfg0.Parameters).map
            (fun p => ⟨p.name, p.required⟩) ∧
        tGood.mcpManifest.InputSchema =
          (cfg0.TemplateParameters ++ cfg0.Parameters).map
            (fun p => ⟨p.name, p.required⟩) ∧
        tGood.Manifest = tGood.manifest ∧
        tGood.McpManifest = tGood.mcpManifest) :=
  ⟨rfl, Initialize_manifests_and_accessors cfg0 regGood tGood rfl⟩

/-- C10: whenever Initialize succeeds, the Kind field of the produced tool
is the constant "duckdb-sql", whatever Kind the configuration declared. -/
theorem Initialize_kind_constant (c : Config) (srcs : SourceRegistry)
    (t : Tool) (h : c.Initialize srcs = Except.ok t) :
    t.Kind = "duckdb-sql" := by
  unfold Config.Initialize at h
  split at h
  · exact absurd h (by simp)
  · split at h
    · injection h with h2
      subst h2
      rfl
    · exact absurd h (by simp)

/-- C10 witness: cfg0 declares Kind "whatever", yet the produced tool's
Kind is "duckdb-sql". -/
theorem Initialize_kind_constant_witness :
    cfg0.Kind = "whatever" ∧ tGood.Kind = "duckdb-sql" :=
  ⟨rfl, Initialize_kind_constant cfg0 regGood tGood rfl⟩

/-- A required template parameter absent from the input map makes template
resolution fail, whatever the statement text. -/
theorem ResolveTemplateParams_missing_required (tparams : List Parameter)
    (m : List (String × Value)) (p : Parameter)
    (hp : p ∈ tparams) (hreq : p.required = true)
    (hm : m.lookup p.name = none) :
    ∀ stmt, ∃ e, ResolveTemplateParams tparams stmt m = Except.error e := by
  induction tparams with
  | nil => cases hp
  | cons q rest ih =>
    intro stmt
    rcases List.mem_cons.mp hp with hq | hq
    · subst hq
      exact ⟨"missing required template parameter " ++ p.name,
        by simp [ResolveTemplateParams, hm, hreq]⟩
    · cases hlook : m.lookup q.name with
      | some v =>
        obtain ⟨e, he⟩ := ih hq
          (stmt.replace ("\x7b\x7b." ++ q.name ++ "\x7d\x7d") (renderValue v))
        exact ⟨e, by simp [ResolveTemplateParams, hlook, he]⟩
      | none =>
        by_cases hqr : q.required = true
        · exact ⟨"missing required template parameter " ++ q.name,
            by simp [ResolveTemplateParams, hlook, hqr]⟩
        · obtain ⟨e, he⟩ := ih hq stmt
          exact ⟨e, by simp [ResolveTemplateParams, hlook, hqr, he]⟩

/-- A required standard parameter absent from the input map makes
standard-parameter extraction fail. -/
theorem GetParams_missing_required (params : List Parameter)
    (m : List (String × Value)) (p : Parameter)
    (hp : p ∈ params) (hreq : p.required = true)
    (hm : m.lookup p.name = none) :
    ∃ e, GetParams params m = Except.error e := by
  induction params with
  | nil => cases hp
  | cons q rest ih =>
    rcases List.mem_cons.mp hp with hq | hq
    · subst hq
      exact ⟨"missing required standard parameter " ++ p.name,
        by simp [GetParams, hm, hreq]⟩
    · cases hlook : m.lookup q.name with
      | some v =>
        obtain ⟨e, he⟩ := ih hq
        exact ⟨e, by simp [GetParams, hlook, he]⟩
      | none =>
        by_cases hqr : q.required = true
        · exact ⟨"missing required standard parameter " ++ q.name,
            by simp [GetParams, hlook, hqr]⟩
        · obtain ⟨e, he⟩ := ih hq
          exact ⟨e, by simp [GetParams, hlook, hqr, he]⟩

/-- C6: an invocation whose input map lacks a required template parameter
fails with the template-resolution error; an invocation whose template
parameters resolve but whose input map lacks a required standard parameter
fails with the parameter-validation error; in both cases the outcome does
not depend on the database handle — the query is never submitted. -/
theorem Invoke_missing_required_param_errors (t : Tool) (db db' : Db)
    (params : ParamValues) :
    (∀ p ∈ t.TemplateParameters, p.required = true →
      (paramValuesAsMap params).lookup p.name = none →
      (∃ e, t.Invoke db params =
          Except.error ("unable to extract template params " ++ e)) ∧
        t.Invoke db params = t.Invoke db' params) ∧
      (∀ stmt, ResolveTemplateParams t.TemplateParameters t.Statement
          (paramValuesAsMap params) = Except.ok stmt →
        ∀ q ∈ t.Parameters, q.required = true →
        (paramValuesAsMap params).lookup q.name = none →
        (∃ e, t.Invoke db params =
            Except.error ("unable to extract standard params " ++ e)) ∧
          t.Invoke db params = t.Invoke db' params) := by
  constructor
  · intro p hp hreq hm
    obtain ⟨e, he⟩ := ResolveTemplateParams_missing_required
      t.TemplateParameters (paramValuesAsMap params) p hp hreq hm t.Statement
    constructor
    · exact ⟨e, by simp [Tool.Invoke, Tool.InvokeTraced, he]⟩
    · simp [Tool.Invoke, Tool.InvokeTraced, he]
  · intro stmt hok q hq hreq hm
    obtain ⟨e, he⟩ := GetParams_missing_required
      t.Parameters (paramValuesAsMap params) q hq hreq hm
    constructor
    · exact ⟨e, by simp [Tool.Invoke, Tool.InvokeTraced, hok, he]⟩
    · simp [Tool.Invoke, Tool.InvokeTraced, hok, he]

/-- C6 witness: t1 (required template parameter "tp") and tStd (required
standard parameter "p") invoked on the empty input map fail with the
respective errors, and the outcome is the same for two different database
handles. -/
theorem Invoke_missing_required_param_errors_witness :
    ((∃ e, Tool.Invoke t1 db0 [] =
        Except.error ("unable to extract template params " ++ e)) ∧
      Tool.Invoke t1 db0 [] = Tool.Invoke t1 dbEmpty []) ∧
      ((∃ e, Tool.Invoke tStd db0 [] =
          Except.error ("unable to extract standard params " ++ e)) ∧
        Tool.Invoke tStd db0 [] = Tool.Invoke tStd dbEmpty []) :=
  ⟨(Invoke_missing_required_param_errors t1 db0 dbEmpty []).1 ⟨"tp", true⟩
      (by decide) rfl rfl,
    (Invoke_missing_required_param_errors tStd db0 dbEmpty []).2 "SELECT 1, 2"
      rfl ⟨"p", true⟩ (by decide) rfl rfl⟩

/-- C8: the row cursor is finalized on every exit path — the cursor-fate
trace never reports an acquired-but-unclosed cursor; when every row scans
successfully but the cursor close reports an error, Invoke returns that
error as the result-close error instead of the accumulated rows; and when
close succeeds but end-of-iteration reports an error, Invoke returns it as
the row-iteration error. -/
theorem Invoke_cursor_finalization (t : Tool) (db : Db) (params : ParamValues) :
    (t.InvokeTraced db params).2 ≠ some false ∧
      (∀ stmt ps rows cols vss,
        ResolveTemplateParams t.TemplateParameters t.Statement
            (paramValuesAsMap params) = Except.ok stmt →
        GetParams t.Parameters (paramValuesAsMap params) = Except.ok ps →
        db stmt (paramValuesAsSlice ps) = Except.ok rows →
        rows.columnsRes = Except.ok cols →
        rows.scans = List.map Except.ok vss →
        (∀ e, rows.closeErr = some e →
          t.Invoke db params =
            Except.error ("unable to close rows: " ++ e)) ∧
          (rows.closeErr = none → ∀ e, rows.iterErr = some e →
            t.Invoke db params =
              Except.error ("error iterating rows: " ++ e))) := by
  constructor
  · simp only [Tool.InvokeTraced]
    (repeat' split) <;> simp
  · intro stmt ps rows cols vss h1 h2 h3 h4 h5
    constructor
    · intro e he
      unfold Tool.Invoke
      rw [invokeTraced_eq_of_pipeline t db params stmt ps rows cols h1 h2 h3 h4]
      rw [h5, processRows_map_ok, he]
    · intro hc e he
      unfold Tool.Invoke
      rw [invokeTraced_eq_of_pipeline t db params stmt ps rows cols h1 h2 h3 h4]
      rw [h5, processRows_map_ok, hc, he]

/-- C8 witness: the cursor trace of a successful invocation reports the
cursor closed; a close error after a clean scan surfaces as the
result-close error, and an end-of-iteration error surfaces as the
row-iteration error. -/
theorem Invoke_cursor_finalization_witness :
    ((Tool.InvokeTraced t0 dbCloseErr []).2 ≠ some false ∧
      Tool.Invoke t0 dbCloseErr [] =
        Except.error ("unable to close rows: " ++ "close boom")) ∧
      ((Tool.InvokeTraced t0 dbIterErr []).2 ≠ some false ∧
        Tool.Invoke t0 dbIterErr [] =
          Except.error ("error iterating rows: " ++ "iter boom")) :=
  ⟨⟨(Invoke_cursor_finalization t0 dbCloseErr []).1,
      ((Invoke_cursor_finalization t0 dbCloseErr []).2 "SELECT 1, 2" []
          rowsCloseErr ["a"] [[Value.vint 1]] rfl rfl rfl rfl rfl).1
        "close boom" rfl⟩,
    ⟨(Invoke_cursor_finalization t0 dbIterErr []).1,
      ((Invoke_cursor_finalization t0 dbIterErr []).2 "SELECT 1, 2" []
          rowsIterErr ["a"] [[Value.vint 1]] rfl rfl rfl rfl rfl).2
        rfl "iter boom" rfl⟩⟩

/-- Looking up the assigned key after a Go map assignment returns the
assigned value. -/
theorem goMapInsert_lookup_self {α : Type} (m : List (String × α))
    (k : String) (v : α) : (goMapInsert m k v).lookup k = some v := by
  induction m with
  | nil => simp [goMapInsert, List.lookup]
  | cons hd tl ih =>
    obtain ⟨k', v'⟩ := hd
    by_cases h : k = k'
    · simp [goMapInsert, h, List.lookup]
    · have hbeq : (k == k') = false := beq_eq_false_iff_ne.mpr h
      by_cases h2 : strLt k k' = true
      · simp [goMapInsert, h, h2, List.lookup, hbeq]
      · simp [goMapInsert, h, h2, List.lookup, hbeq, ih]

/-- A Go map assignment to a different key leaves a key's lookup
unchanged. -/
theorem goMapInsert_lookup_ne {α : Type} (m : List (String × α))
    (k k' : String) (v : α) (h : k ≠ k') :
    (goMapInsert m k' v).lookup k = m.lookup k := by
  have hbeq : (k == k') = false := beq_eq_false_iff_ne.mpr h
  induction m with
  | nil => simp [goMapInsert, List.lookup, hbeq]
  | cons hd tl ih =>
    obtain ⟨k0, v0⟩ := hd
    by_cases h1 : k' = k0
    · subst h1
      simp [goMapInsert, List.lookup, hbeq]
    · by_cases h2 : strLt k' k0 = true
      · simp [goMapInsert, h1, h2, List.lookup, hbeq]
      · simp [goMapInsert, h1, h2, List.lookup, ih]

/-- Assigning a fresh key adds exactly that key: the new key multiset is
the fresh key plus the old keys. -/
theorem goMapInsert_keys_perm {α : Type} (m : List (String × α))
    (k : String) (v : α) (h : k ∉ m.map Prod.fst) :
    ((goMapInsert m k v).map Prod.fst).Perm (k :: m.map Prod.fst) := by
  induction m with
  | nil => simp [goMapInsert]
  | cons hd tl ih =>
    obtain ⟨k0, v0⟩ := hd
    simp only [List.map_cons, List.mem_cons] at h
    push_neg at h
    obtain ⟨hk0, htl⟩ := h
    by_cases h2 : strLt k k0 = true
    · simp [goMapInsert, hk0, h2]
    · simp only [goMapInsert, if_neg hk0, if_neg h2, List.map_cons]
      exact ((ih htl).cons k0).trans (List.Perm.swap k k0 _)

/-- Folding Go map assignments whose keys all differ from `c` leaves `c`'s
lookup unchanged. -/
theorem foldl_goMapInsert_lookup_of_not_mem {α : Type}
    (ps : List (String × α)) (c : String) (h : c ∉ ps.map Prod.fst) :
    ∀ m : List (String × α),
      ((ps.foldl (fun m cv => goMapInsert m cv.1 cv.2) m).lookup c) =
        m.lookup c := by
  induction ps with
  | nil => intro m; rfl
  | cons hd tl ih =>
    intro m
    simp only [List.map_cons, List.mem_cons] at h
    push_neg at h
    rw [List.foldl_cons, ih h.2, goMapInsert_lookup_ne _ _ _ _ h.1]

/-- With pairwise-distinct keys, folding Go map assignments binds each
pair's key to that pair's value. -/
theorem foldl_goMapInsert_lookup_mem {α : Type}
    (ps : List (String × α)) (c : String) (v : α)
    (hmem : (c, v) ∈ ps) (hnd : (ps.map Prod.fst).Nodup) :
    ∀ m : List (String × α),
      ((ps.foldl (fun m cv => goMapInsert m cv.1 cv.2) m).lookup c) =
        some v := by
  induction ps with
  | nil => cases hmem
  | cons hd tl ih =>
    intro m
    simp only [List.map_cons, List.nodup_cons] at hnd
    rcases List.mem_cons.mp hmem with heq | htl
    · subst heq
      rw [List.foldl_cons,
        foldl_goMapInsert_lookup_of_not_mem tl c hnd.1,
        goMapInsert_lookup_self]
    · rw [List.foldl_cons]
      exact ih htl hnd.2 _

/-- Keys of a fold of Go map assignments over pairs with fresh distinct
keys: a permutation of the pair keys plus the old keys. -/
theorem foldl_goMapInsert_keys_perm {α : Type} (ps : List (String × α)) :
    ∀ m : List (String × α),
      (ps.map Prod.fst ++ m.map Prod.fst).Nodup →
      ((ps.foldl (fun m cv => goMapInsert m cv.1 cv.2) m).map Prod.fst).Perm
        (ps.map Prod.fst ++ m.map Prod.fst) := by
  induction ps with
  | nil => intro m _; simp
  | cons hd tl ih =>
    intro m hnd
    have hnd0 : (hd.1 :: (tl.map Prod.fst ++ m.map Prod.fst)).Nodup := by
      simpa using hnd
    rw [List.nodup_cons] at hnd0
    have hnotm : hd.1 ∉ m.map Prod.fst := fun hx =>
      hnd0.1 (List.mem_append.mpr (Or.inr hx))
    have hkeys := goMapInsert_keys_perm m hd.1 hd.2 hnotm
    have hperm : (tl.map Prod.fst ++ (goMapInsert m hd.1 hd.2).map Prod.fst).Perm
        (hd.1 :: (tl.map Prod.fst ++ m.map Prod.fst)) :=
      (List.Perm.append_left _ hkeys).trans List.perm_middle
    have hnd' : (tl.map Prod.fst ++ (goMapInsert m hd.1 hd.2).map Prod.fst).Nodup :=
      hperm.symm.nodup (by rw [List.nodup_cons]; exact hnd0)
    rw [List.foldl_cons]
    refine (ih (goMapInsert m hd.1 hd.2) hnd').trans ?_
    simpa using hperm

/-- The row-materialization fold step is exactly a Go map assignment of
the (column, value) pair: the source's nil branch and value branch both
store the cell under the column key. -/
theorem scanRowToMap_eq_fold (cols : List String) (vals : List Value) :
    scanRowToMap cols vals =
      (cols.zip vals).foldl (fun m cv => goMapInsert m cv.1 cv.2) [] := by
  unfold scanRowToMap
  congr 1
  funext m cv
  obtain ⟨c, v⟩ := cv
  cases v <;> rfl

/-- With distinct column names and a full-width row, the materialized
record binds each column to that row's value for it. -/
theorem scanRowToMap_lookup (cols : List String) (vals : List Value)
    (hnd : cols.Nodup) (hlen : vals.length = cols.length)
    (c : String) (v : Value) (hmem : (c, v) ∈ cols.zip vals) :
    (scanRowToMap cols vals).lookup c = some v := by
  rw [scanRowToMap_eq_fold]
  have hkeys : (cols.zip vals).map Prod.fst = cols :=
    List.map_fst_zip cols vals (le_of_eq hlen.symm)
  exact foldl_goMapInsert_lookup_mem _ c v hmem (by rw [hkeys]; exact hnd) []

/-- With distinct column names and a full-width row, the materialized
record's keys are exactly the columns — as a permutation, not in the
engine's column order. -/
theorem scanRowToMap_keys_perm (cols : List String) (vals : List Value)
    (hnd : cols.Nodup) (hlen : vals.length = cols.length) :
    ((scanRowToMap cols vals).map Prod.fst).Perm cols := by
  rw [scanRowToMap_eq_fold]
  have hkeys : (cols.zip vals).map Prod.fst = cols :=
    List.map_fst_zip cols vals (le_of_eq hlen.symm)
  have h := foldl_goMapInsert_keys_perm (cols.zip vals) []
    (by simp [hkeys, hnd])
  simpa [hkeys] using h

/-- Under a fully successful pipeline, the elements of the returned slice
are the materializations of the engine rows, in order. -/
theorem Invoke_ok_toList (t : Tool) (db : Db) (params : ParamValues)
    (stmt : String) (ps : ParamValues) (rows : Rows) (cols : List String)
    (vss : List (List Value))
    (h1 : ResolveTemplateParams t.TemplateParameters t.Statement
        (paramValuesAsMap params) = Except.ok stmt)
    (h2 : GetParams t.Parameters (paramValuesAsMap params) = Except.ok ps)
    (h3 : db stmt (paramValuesAsSlice ps) = Except.ok rows)
    (h4 : rows.columnsRes = Except.ok cols)
    (h5 : rows.scans = List.map Except.ok vss)
    (h6 : rows.closeErr = none) (h7 : rows.iterErr = none) :
    (t.Invoke db params).map GoSlice.toList =
      Except.ok (vss.map (scanRowToMap cols)) := by
  have key : t.Invoke db params =
      Except.ok (vss.foldl (fun a vs => goAppend a (scanRowToMap cols vs)) none) := by
    unfold Tool.Invoke
    rw [invokeTraced_eq_of_pipeline t db params stmt ps rows cols h1 h2 h3 h4]
    rw [h5, processRows_map_ok, h6, h7]
  have h := toList_foldl_goAppend (scanRowToMap cols) vss (none : GoSlice RowMap)
  simp only [GoSlice.toList, Option.getD_none, List.nil_append] at h
  rw [key]
  simp [Except.map, GoSlice.toList, h]

/-- C3 counterexample: the engine reports columns ["b", "a"], yet the
record Invoke materializes for the single row carries its keys in the
canonical order ["a", "b"] of the unordered Go map — not in the result
set's column order, refuting the ordered-mapping claim. -/
theorem Invoke_record_order_counterexample :
    rows0.columnsRes = Except.ok ["b", "a"] ∧
      Tool.Invoke t0 db0 [] =
        Except.ok (some [[("a", Value.vint 2), ("b", Value.vint 1)]]) ∧
      List.map Prod.fst [("a", Value.vint 2), ("b", Value.vint 1)] ≠ ["b", "a"] :=
  ⟨rfl, rfl, by decide⟩

/-- C3 (amended): for every row materialized by Invoke, when the result
set's column names are distinct and the row has one value per column, the
produced record is a mapping binding exactly the result set's columns,
each to that row's value — but as an unordered Go map: its keys are a
permutation of the columns, not necessarily in the engine's column
order. -/
theorem Invoke_record_maps_columns_unordered (t : Tool) (db : Db)
    (params : ParamValues) (stmt : String) (ps : ParamValues) (rows : Rows)
    (cols : List String) (vss : List (List Value))
    (h1 : ResolveTemplateParams t.TemplateParameters t.Statement
        (paramValuesAsMap params) = Except.ok stmt)
    (h2 : GetParams t.Parameters (paramValuesAsMap params) = Except.ok ps)
    (h3 : db stmt (paramValuesAsSlice ps) = Except.ok rows)
    (h4 : rows.columnsRes = Except.ok cols)
    (h5 : rows.scans = List.map Except.ok vss)
    (h6 : rows.closeErr = none) (h7 : rows.iterErr = none)
    (hnd : cols.Nodup) (hlen : ∀ vs ∈ vss, vs.length = cols.length) :
    (t.Invoke db params).map GoSlice.toList =
        Except.ok (vss.map (scanRowToMap cols)) ∧
      ∀ vs ∈ vss,
        ((scanRowToMap cols vs).map Prod.fst).Perm cols ∧
          ∀ cv ∈ cols.zip vs,
            (scanRowToMap cols vs).lookup cv.1 = some cv.2 := by
  refine ⟨Invoke_ok_toList t db params stmt ps rows cols vss
    h1 h2 h3 h4 h5 h6 h7, ?_⟩
  intro vs hvs
  refine ⟨scanRowToMap_keys_perm cols vs hnd (hlen vs hvs), ?_⟩
  intro cv hcv
  obtain ⟨c, v⟩ := cv
  exact scanRowToMap_lookup cols vs hnd (hlen vs hvs) c v hcv

/-- C3 witness for the amended claim: the two-column one-row outcome
rows0. -/
theorem Invoke_record_maps_columns_unordered_witness :
    (Tool.Invoke t0 db0 []).map GoSlice.toList =
        Except.ok ([[Value.vint 1, Value.vint 2]].map (scanRowToMap ["b", "a"])) ∧
      ∀ vs ∈ [[Value.vint 1, Value.vint 2]],
        ((scanRowToMap ["b", "a"] vs).map Prod.fst).Perm ["b", "a"] ∧
          ∀ cv ∈ (["b", "a"].zip vs),
            (scanRowToMap ["b", "a"] vs).lookup cv.1 = some cv.2 :=
  Invoke_record_maps_columns_unordered t0 db0 [] "SELECT 1, 2" [] rows0
    ["b", "a"] [[Value.vint 1, Value.vint 2]] rfl rfl rfl rfl rfl rfl rfl
    (by decide) (by decide)

/-- C5 counterexample: with a duplicated column name (columns ["a", "a"])
and row values (NULL, 5), the later Go map assignment overwrites the
earlier one: the record binds "a" to 5, so the NULL value of column 0 is
not represented under its column key, refuting the claim for result sets
with repeated column names. -/
theorem Invoke_null_key_counterexample :
    rows1.columnsRes = Except.ok ["a", "a"] ∧
      rows1.scans = [Except.ok [Value.vnull, Value.vint 5]] ∧
      Tool.Invoke t0 db1 [] = Except.ok (some [[("a", Value.vint 5)]]) ∧
      List.lookup "a" [("a", Value.vint 5)] ≠ some Value.vnull :=
  ⟨rfl, rfl, rfl, by decide⟩

/-- C5 (amended): for every row materialized by Invoke, when the result
set's column names are distinct and the row has one value per column,
every column's key is present in the record (never omitted), and a column
whose value in that row is NULL is bound explicitly to the null marker. -/
theorem Invoke_null_columns_explicit (t : Tool) (db : Db)
    (params : ParamValues) (stmt : String) (ps : ParamValues) (rows : Rows)
    (cols : List String) (vss : List (List Value))
    (h1 : ResolveTemplateParams t.TemplateParameters t.Statement
        (paramValuesAsMap params) = Except.ok stmt)
    (h2 : GetParams t.Parameters (paramValuesAsMap params) = Except.ok ps)
    (h3 : db stmt (paramValuesAsSlice ps) = Except.ok rows)
    (h4 : rows.columnsRes = Except.ok cols)
    (h5 : rows.scans = List.map Except.ok vss)
    (h6 : rows.closeErr = none) (h7 : rows.iterErr = none)
    (hnd : cols.Nodup) (hlen : ∀ vs ∈ vss, vs.length = cols.length) :
    (t.Invoke db params).map GoSlice.toList =
        Except.ok (vss.map (scanRowToMap cols)) ∧
      ∀ vs ∈ vss, ∀ cv ∈ cols.zip vs,
        ((scanRowToMap cols vs).lookup cv.1).isSome = true ∧
          (cv.2 = Value.vnull →
            (scanRowToMap cols vs).lookup cv.1 = some Value.vnull) := by
  refine ⟨Invoke_ok_toList t db params stmt ps rows cols vss
    h1 h2 h3 h4 h5 h6 h7, ?_⟩
  intro vs hvs cv hcv
  obtain ⟨c, v⟩ := cv
  have hl := scanRowToMap_lookup cols vs hnd (hlen vs hvs) c v hcv
  constructor
  · rw [hl]; rfl
  · intro hv
    rw [hl]
    exact congrArg some hv

/-- C5 witness for the amended claim: the outcome rowsNull with distinct
columns ["b", "a"] and a NULL in the first column. -/
theorem Invoke_null_columns_explicit_witness :
    (Tool.Invoke t0 dbNull []).map GoSlice.toList =
        Except.ok ([[Value.vnull, Value.vint 7]].map (scanRowToMap ["b", "a"])) ∧
      ∀ vs ∈ [[Value.vnull, Value.vint 7]], ∀ cv ∈ (["b", "a"].zip vs),
        ((scanRowToMap ["b", "a"] vs).lookup cv.1).isSome = true ∧
          (cv.2 = Value.vnull →
            (scanRowToMap ["b", "a"] vs).lookup cv.1 = some Value.vnull) :=
  Invoke_null_columns_explicit t0 dbNull [] "SELECT 1, 2" [] rowsNull
    ["b", "a"] [[Value.vnull, Value.vint 7]] rfl rfl rfl rfl rfl rfl rfl
    (by decide) (by decide)
